import Mathlib

/-!
# Verification of the poly15-bot order pipeline

Shallow embedding of the core of the `poly15-bot` repository:

* `internal/clob/builder.go` — order building (tick rounding, integer-exact
  amount derivation, expiration rule, input validation);
* `internal/wallet` signer (`SignOrder` / `SignOrderRaw` and `validateOrder`);
* the CLOB REST client's proxy-rotating `doRequest`;
* `internal/clob/websocket.go` — subscription tracking, reconnect backoff,
  `Close` semantics;
* `internal/strategy/blackswan.go` — the `PositionTracker` ledger.

Go `float64` prices and sizes are modelled as rationals; Go machine integers
(`int64` amounts, backoff durations) are modelled as `Int`/`Nat` — all values
reachable in the claims are far from any 64-bit overflow.  Effectful inputs
(random salt, the ECDSA primitive, the network) are passed in explicitly as
parameters, exactly where the Go code consumes them.
-/

namespace Poly15

/-- Go `math.Round`: round half away from zero. -/
def goRound (q : ℚ) : ℤ :=
  if 0 ≤ q then ⌊q + 1/2⌋ else -⌊-q + 1/2⌋

/-- Source: `tickSize = 0.001` from `builder.go`. -/
def tickSize : ℚ := 1/1000

/-- Source: `roundToTickSize(price) = math.Round(price/tickSize) * tickSize`. -/
def roundToTickSize (price : ℚ) : ℚ :=
  (goRound (price / tickSize) : ℚ) * tickSize

/-- Source: `priceInt := int64(math.Round(priceRounded * 1000))` where
`priceRounded := roundToTickSize(params.Price)`. -/
def priceIntOf (price : ℚ) : ℤ :=
  goRound (roundToTickSize price * 1000)

/-- Source: `sizeInt := int64(math.Floor(params.Size * 100))`. -/
def sizeIntOf (size : ℚ) : ℤ := ⌊size * 100⌋

/-- Source: `sizeWei := sizeInt * 10000`. -/
def sizeWeiOf (size : ℚ) : ℤ := sizeIntOf size * 10000

/-- Source: `costWei := (sizeWei * priceInt) / 1000` — Go `/` on `int64` truncates
toward zero, i.e. `Int.tdiv`. -/
def costWeiOf (price size : ℚ) : ℤ :=
  Int.tdiv (sizeWeiOf size * priceIntOf price) 1000

/-- Source: `OrderSide` (`"BUY"` / `"SELL"`) from `types.go`. -/
inductive OrderSide
  | buy
  | sell
deriving DecidableEq, Repr

/-- The wire string of an `OrderSide`. -/
def OrderSide.toStr : OrderSide → String
  | .buy => "BUY"
  | .sell => "SELL"

/-- Source: `sideToUint8`: BUY ↦ `wallet.SideBuy = 0`, SELL ↦ `wallet.SideSell = 1`. -/
def sideToUint8 : OrderSide → ℕ
  | .buy => 0
  | .sell => 1

/-- Source: `OrderType` (`"FOK"` / `"GTC"` / `"GTD"`) from `types.go`. -/
inductive OrderType
  | FOK
  | GTC
  | GTD
deriving DecidableEq, Repr

/-- The wire string of an `OrderType`. -/
def OrderType.toStr : OrderType → String
  | .FOK => "FOK"
  | .GTC => "GTC"
  | .GTD => "GTD"

/-- Source: `BuildParams` from `builder.go`. -/
structure BuildParams where
  tokenID : String
  side : OrderSide
  price : ℚ
  size : ℚ
  orderType : OrderType
  expiration : ℤ
  feeRateBps : ℤ
  negRisk : Bool
deriving DecidableEq, Repr

/-- Source: `wallet.Order`, the struct handed to the EIP-712 signer.  Go `*big.Int`
fields are nilable, hence `Option ℤ`; addresses are modelled as their
hex strings (opaque to every claim). -/
structure WalletOrder where
  salt : Option ℤ
  maker : String
  signer : String
  taker : String
  tokenID : Option ℤ
  makerAmount : Option ℤ
  takerAmount : Option ℤ
  expiration : Option ℤ
  nonce : Option ℤ
  feeRateBps : Option ℤ
  side : ℕ
  signatureType : ℕ
deriving DecidableEq, Repr

/-- The API-level `clob.Order` (all-string wire form) from `types.go`. -/
structure Order where
  salt : ℤ
  maker : String
  signer : String
  taker : String
  tokenID : String
  makerAmount : String
  takerAmount : String
  expiration : String
  nonce : String
  feeRateBps : String
  side : String
  signatureType : ℤ
  signature : String
deriving DecidableEq, Repr

/-- Source: `clob.OrderRequest` from `types.go`. -/
structure OrderRequest where
  order : Order
  owner : String
  orderType : String
deriving DecidableEq, Repr

/-- The `OrderBuilder` fields that `BuildOrder` reads (addresses already in
their lowercase wire form, as produced once at construction). -/
structure OrderBuilder where
  maker : String
  signerAddr : String
  apiKey : String
  nonce : ℤ
  signatureType : ℕ
deriving DecidableEq, Repr

/-- Source: `defaultExpirationSeconds = 3600`. -/
def defaultExpirationSeconds : ℤ := 3600

/-- Source: `defaultFeeRateBps = 0`. -/
def defaultFeeRateBps : ℤ := 0

/-- Decimal digit value of a character. -/
def digitVal (c : Char) : ℤ := (c.toNat : ℤ) - ('0'.toNat : ℤ)

/-- Fold a nonempty all-digit character list into its base-10 value;
`none` otherwise. -/
def parseDecDigits (cs : List Char) : Option ℤ :=
  if cs ≠ [] ∧ cs.all Char.isDigit then
    some (cs.foldl (fun acc c => acc * 10 + digitVal c) 0)
  else none

/-- Source: `new(big.Int).SetString(s, 10)`: an optional sign followed by one or
more decimal digits. -/
def parseBigInt10 (s : String) : Option ℤ :=
  match s.data with
  | '+' :: rest => parseDecDigits rest
  | '-' :: rest => (parseDecDigits rest).map (fun n => -n)
  | cs => parseDecDigits cs

/-- The expiration computed by `BuildOrder`: `0` unless the order type is
GTD, in which case the caller's value, defaulted to `now + 3600` when the
caller supplied `0`. -/
def expirationOf (now : ℤ) (params : BuildParams) : ℤ :=
  if params.orderType = OrderType.GTD then
    if params.expiration = 0 then now + defaultExpirationSeconds
    else params.expiration
  else 0

/-- The fee rate computed by `BuildOrder` (`-1` means default). -/
def feeRateOf (params : BuildParams) : ℤ :=
  if params.feeRateBps < 0 then defaultFeeRateBps else params.feeRateBps

/-- Source: `makerAmount`: collateral for buys, token count for sells. -/
def makerAmountInt (params : BuildParams) : ℤ :=
  if params.side = OrderSide.buy then costWeiOf params.price params.size
  else sizeWeiOf params.size

/-- Source: `takerAmount`: token count for buys, collateral for sells. -/
def takerAmountInt (params : BuildParams) : ℤ :=
  if params.side = OrderSide.buy then sizeWeiOf params.size
  else costWeiOf params.price params.size

/-- The zero address in its lowercase wire form. -/
def zeroAddress : String := "0x0000000000000000000000000000000000000000"

/-- The `wallet.Order` that `BuildOrder` hands to the signer. -/
def mkWalletOrder (b : OrderBuilder) (now salt tokenIDBig : ℤ)
    (params : BuildParams) : WalletOrder where
  salt := some salt
  maker := b.maker
  signer := b.signerAddr
  taker := zeroAddress
  tokenID := some tokenIDBig
  makerAmount := some (makerAmountInt params)
  takerAmount := some (takerAmountInt params)
  expiration := some (expirationOf now params)
  nonce := some b.nonce
  feeRateBps := some (feeRateOf params)
  side := sideToUint8 params.side
  signatureType := b.signatureType

/-- The API order serialized by `BuildOrder` (big integers via their decimal
string form, matching `big.Int.String` / `strconv.FormatInt`). -/
def mkAPIOrder (b : OrderBuilder) (now salt : ℤ) (sig : String)
    (params : BuildParams) : Order where
  salt := salt
  maker := b.maker
  signer := b.signerAddr
  taker := zeroAddress
  tokenID := params.tokenID
  makerAmount := toString (makerAmountInt params)
  takerAmount := toString (takerAmountInt params)
  expiration := toString (expirationOf now params)
  nonce := toString b.nonce
  feeRateBps := toString (feeRateOf params)
  side := params.side.toStr
  signatureType := (b.signatureType : ℤ)
  signature := sig

/-- The `OrderRequest` returned by a successful `BuildOrder`. -/
def mkRequest (b : OrderBuilder) (now salt : ℤ) (sig : String)
    (params : BuildParams) : OrderRequest where
  order := mkAPIOrder b now salt sig params
  owner := b.apiKey
  orderType := params.orderType.toStr

/-- Source: `BuildOrder` from `builder.go`.  `now` is the wall clock read for the
GTD default expiration, `saltResult` the outcome of `generateSalt`, and
`sign` / `negRiskSign` the two configured EIP-712 signers (standard and
neg-risk exchange domains). -/
def buildOrder (b : OrderBuilder) (now : ℤ) (saltResult : Except String ℤ)
    (sign negRiskSign : WalletOrder → Except String String)
    (params : BuildParams) : Except String OrderRequest :=
  if params.price ≤ 0 ∨ 1 ≤ params.price then
    .error ("price must be between 0 and 1 exclusive, got " ++ toString params.price)
  else if params.size ≤ 0 then
    .error ("size must be positive, got " ++ toString params.size)
  else
    match saltResult with
    | .error e => .error ("failed to generate salt: " ++ e)
    | .ok salt =>
      match parseBigInt10 params.tokenID with
      | none => .error ("invalid token ID: " ++ params.tokenID)
      | some tokenIDBig =>
        match (if params.negRisk then negRiskSign else sign)
            (mkWalletOrder b now salt tokenIDBig params) with
        | .error e => .error ("failed to sign order: " ++ e)
        | .ok signature => .ok (mkRequest b now salt signature params)

/-! ## The EIP-712 order signer (`wallet` package) -/

/-- Source: `ErrInvalidOrder = errors.New("invalid order parameters")`. -/
def errInvalidOrder : String := "invalid order parameters"

/-- Source: `validateOrder`: every `*big.Int` field set, `side ∈ {0,1}`,
`signatureType ∈ {0,1,2}`. -/
def validateOrder (o : WalletOrder) : Except String Unit :=
  if o.salt = none ∨ o.tokenID = none ∨ o.makerAmount = none ∨
      o.takerAmount = none ∨ o.expiration = none ∨ o.nonce = none ∨
      o.feeRateBps = none then
    .error errInvalidOrder
  else if 1 < o.side then .error errInvalidOrder
  else if 2 < o.signatureType then .error errInvalidOrder
  else .ok ()

/-- The in-place V adjustment of `SignOrder` / `SignOrderRaw`:
`if signature[64] < 27 { signature[64] += 27 }`. -/
def adjustV (sig : List ℕ) : List ℕ :=
  if sig.getD 64 0 < 27 then sig.set 64 (sig.getD 64 0 + 27) else sig

/-- One lowercase hex digit. -/
def hexDigitChar (n : ℕ) : Char :=
  if n < 10 then Char.ofNat ('0'.toNat + n) else Char.ofNat ('a'.toNat + (n - 10))

/-- Lowercase hex of one byte, as in `hex.EncodeToString`. -/
def byteToHex (b : ℕ) : String :=
  String.mk [hexDigitChar (b / 16 % 16), hexDigitChar (b % 16)]

/-- Source: `hex.EncodeToString` over a byte list. -/
def hexEncode (bs : List ℕ) : String :=
  String.join (bs.map byteToHex)

/-- Source: `SignOrderRaw`: validate, hash, sign with the wallet key, then shift the
recovery byte.  The keccak digest pipeline and the ECDSA primitive are the
parameters `hashO` and `walletSign` (the Go code calls `go-ethereum`'s
`crypto.Sign` through `Wallet.Sign`). -/
def signOrderRaw (hashO : WalletOrder → List ℕ)
    (walletSign : List ℕ → Except String (List ℕ))
    (o : WalletOrder) : Except String (List ℕ) :=
  match validateOrder o with
  | .error e => .error e
  | .ok () =>
    match walletSign (hashO o) with
    | .error e => .error e
    | .ok sig => .ok (adjustV sig)

/-- Source: `SignOrder`: same pipeline, hex-encoded with a `"0x"` prefix. -/
def signOrder (hashO : WalletOrder → List ℕ)
    (walletSign : List ℕ → Except String (List ℕ))
    (o : WalletOrder) : Except String String :=
  match validateOrder o with
  | .error e => .error e
  | .ok () =>
    match walletSign (hashO o) with
    | .error e => .error e
    | .ok sig => .ok ("0x" ++ hexEncode (adjustV sig))

/-! ## The proxy-rotating REST `doRequest` (CLOB client) -/

/-- Outcome of one `doRequestOnce` call: a transport error or an HTTP
response with a status code. -/
inductive AttemptOutcome
  | netErr (msg : String)
  | resp (status : ℕ)
deriving DecidableEq, Repr

/-- Result of `doRequest`: a response handed back, a transport error
returned directly (no rotation possible), or an exhaustion error
(`"all proxies failed: %w"` / `"all proxies returned 403"`). -/
inductive ReqResult
  | resp (status : ℕ)
  | reqErr (msg : String)
  | allFailed (msg : String)
  | allForbidden
deriving DecidableEq, Repr

/-- Boolean test: `true` exactly on the two aggregate exhaustion errors. -/
def ReqResult.isAggregate : ReqResult → Bool
  | .allFailed _ => true
  | .allForbidden => true
  | _ => false

/-- The retry loop of `doRequest`.  `numProxies` is `len(c.proxyURLs)`,
`outcome t` the result of the `t`-th `doRequestOnce`, `cur` the current
proxy index (`rotateProxy` advances it `(cur+1) % numProxies`), `lastErr`
the last transport error, `fuel` the remaining attempts.  The returned
list records the proxy index used by each attempt, in order. -/
def doRequestLoop (numProxies : ℕ) (outcome : ℕ → AttemptOutcome) :
    ℕ → ℕ → ℕ → Option String → ReqResult × List ℕ
  | _, 0, _, lastErr =>
    (match lastErr with
     | some e => .allFailed ("all proxies failed: " ++ e)
     | none => .allForbidden,
     [])
  | t, fuel+1, cur, lastErr =>
    match outcome t with
    | .netErr m =>
      if 1 < numProxies then
        let r := doRequestLoop numProxies outcome (t+1) fuel
          ((cur+1) % numProxies) (some m)
        (r.1, cur :: r.2)
      else (.reqErr m, [cur])
    | .resp s =>
      if s = 403 ∧ 1 < numProxies then
        let r := doRequestLoop numProxies outcome (t+1) fuel
          ((cur+1) % numProxies) lastErr
        (r.1, cur :: r.2)
      else (.resp s, [cur])

/-- Source: `doRequest`: `maxRetries = len(c.proxyURLs)`, at least one attempt. -/
def doRequest (numProxies : ℕ) (outcome : ℕ → AttemptOutcome) (cur : ℕ) :
    ReqResult × List ℕ :=
  doRequestLoop numProxies outcome 0 (max numProxies 1) cur none

/-! ## The market data stream (`websocket.go`) -/

/-- The `WSClient` state the subscription operations touch: whether `c.conn`
is non-nil, and the `subscribed` set (a `map[string]bool`, modelled as a
duplicate-free insertion list). -/
structure WSState where
  connected : Bool
  subscribed : List String
deriving DecidableEq, Repr

/-- Insert into the subscription set (`c.subscribed[id] = true`). -/
def insertSub (s : List String) (id : String) : List String :=
  if id ∈ s then s else s ++ [id]

/-- Source: `Subscribe`: empty list is a no-op; a nil connection is an error (the
set untouched); then the wire message is written, and only on a successful
write is the set extended. -/
def subscribe (write : Except String Unit) (st : WSState)
    (tokenIDs : List String) : Except String Unit × WSState :=
  if tokenIDs.isEmpty then (.ok (), st)
  else if st.connected = false then (.error "not connected", st)
  else
    match write with
    | .error e => (.error ("failed to subscribe: " ++ e), st)
    | .ok () => (.ok (), { st with subscribed := tokenIDs.foldl insertSub st.subscribed })

/-- Source: `Unsubscribe`: mirror image, deleting the ids on a successful write. -/
def unsubscribe (write : Except String Unit) (st : WSState)
    (tokenIDs : List String) : Except String Unit × WSState :=
  if tokenIDs.isEmpty then (.ok (), st)
  else if st.connected = false then (.error "not connected", st)
  else
    match write with
    | .error e => (.error ("failed to unsubscribe: " ++ e), st)
    | .ok () => (.ok (), { st with subscribed := st.subscribed.filter (fun id => ¬ id ∈ tokenIDs) })

/-- Source: `initialBackoff = 1 * time.Second` in nanoseconds. -/
def initialBackoff : ℕ := 1000000000

/-- Source: `maxBackoff = 30 * time.Second` in nanoseconds. -/
def maxBackoff : ℕ := 30000000000

/-- Source: `backoffFactor = 2`. -/
def backoffFactor : ℕ := 2

/-- Source: `nextBackoff`: double, capped at `maxBackoff`. -/
def nextBackoff (current : ℕ) : ℕ :=
  if maxBackoff < current * backoffFactor then maxBackoff
  else current * backoffFactor

/-- The values the `backoff` variable takes across `Run`'s retry loop:
it starts at `initialBackoff` and is updated by `nextBackoff` after every
failed cycle (it is never reset). -/
def backoffSeq : ℕ → ℕ
  | 0 => initialBackoff
  | n+1 => nextBackoff (backoffSeq n)

/-- The `WSClient` lifecycle state `Close` and `Run` interact through:
whether the `done` channel has been closed and whether a connection is
live. -/
structure WSLifecycle where
  doneClosed : Bool
  connOpen : Bool
deriving DecidableEq, Repr

/-- Go `close(ch)`: closing an already-closed channel panics.  `none`
models the panic. -/
def closeDoneChan (st : WSLifecycle) : Option WSLifecycle :=
  if st.doneClosed then none else some { st with doneClosed := true }

/-- Source: `closeConnection`: drop the connection (nil-safe, idempotent). -/
def closeConnection (st : WSLifecycle) : WSLifecycle :=
  { st with connOpen := false }

/-- Source: `Close`: `close(c.done)` then `closeConnection()`. -/
def wsClose (st : WSLifecycle) : Option WSLifecycle :=
  (closeDoneChan st).map closeConnection

/-- What the head of `Run`'s retry loop does on one iteration. -/
inductive RunStep
  | exits
  | proceeds
deriving DecidableEq, Repr

/-- The `select` at the top of `Run`'s loop: exit on context cancellation
or on a closed `done` channel, otherwise proceed to reconnect. -/
def runLoopStep (st : WSLifecycle) (ctxDone : Bool) : RunStep :=
  if ctxDone then .exits
  else if st.doneClosed then .exits
  else .proceeds

/-! ## The position/order ledger (`PositionTracker` in `blackswan.go`) -/

/-- Source: `OpenPosition` (the fields the ledger claims touch; prices and sizes
as rationals). -/
structure OpenPosition where
  orderID : String
  tokenID : String
  marketSlug : String
  bidPrice : ℚ
  size : ℚ
  status : String
deriving DecidableEq, Repr

/-- Source: `Remove`: delete by order id (map deletion). -/
def trackerRemove (pt : List OpenPosition) (orderID : String) : List OpenPosition :=
  pt.filter (fun p => p.orderID ≠ orderID)

/-- Source: `Add`: `pt.positions[pos.OrderID] = pos` — insert, overwriting any
entry under the same key. -/
def trackerAdd (pt : List OpenPosition) (pos : OpenPosition) : List OpenPosition :=
  pos :: trackerRemove pt pos.orderID

/-- Source: `TotalExposure`: `total += pos.Size * pos.BidPrice` over the map. -/
def totalExposure (pt : List OpenPosition) : ℚ :=
  pt.foldl (fun total p => total + p.size * p.bidPrice) 0

/-! ## Shared helper lemmas -/

/-- Shape of a successful `BuildOrder`: the validations passed, the token id
parsed, the selected signer succeeded, and the result is `mkRequest`. -/
theorem buildOrder_ok_elim {b : OrderBuilder} {now : ℤ}
    {saltR : Except String ℤ} {sign nrsign : WalletOrder → Except String String}
    {params : BuildParams} {req : OrderRequest}
    (h : buildOrder b now saltR sign nrsign params = .ok req) :
    ∃ salt tokenIDBig sig,
      parseBigInt10 params.tokenID = some tokenIDBig ∧
      (if params.negRisk then nrsign else sign)
        (mkWalletOrder b now salt tokenIDBig params) = .ok sig ∧
      req = mkRequest b now salt sig params := by
  unfold buildOrder at h
  split at h
  · exact absurd h (by simp)
  split at h
  · exact absurd h (by simp)
  split at h
  · exact absurd h (by simp)
  rename_i x salt
  split at h
  · exact absurd h (by simp)
  rename_i tokenIDBig hparse
  split at h
  · exact absurd h (by simp)
  rename_i sig hsig
  exact ⟨salt, tokenIDBig, sig, hparse, hsig, (Except.ok.inj h).symm⟩

/-- One step of the backoff invariant. -/
theorem nextBackoff_invariant {d : ℕ} (h1 : initialBackoff ≤ d)
    (h2 : d ≤ maxBackoff) :
    initialBackoff ≤ nextBackoff d ∧ nextBackoff d ≤ maxBackoff ∧
      d ≤ nextBackoff d := by
  simp only [nextBackoff, initialBackoff, maxBackoff, backoffFactor] at *
  split <;> omega

/-! ## Claim theorems -/

/-- C7: in the stream's reconnect loop, every value the backoff variable
takes lies between the initial interval (1s) and the ceiling (30s), and
`nextBackoff` never decreases a reachable value: the sequence is
non-decreasing across consecutive failures. -/
theorem backoffSeq_bounded_monotone (n : ℕ) :
    initialBackoff ≤ backoffSeq n ∧ backoffSeq n ≤ maxBackoff ∧
      backoffSeq n ≤ nextBackoff (backoffSeq n) ∧
      backoffSeq n ≤ backoffSeq (n+1) := by
  induction n with
  | zero =>
    have h1 : initialBackoff ≤ backoffSeq 0 := le_refl _
    have h2 : backoffSeq 0 ≤ maxBackoff := by
      norm_num [backoffSeq, initialBackoff, maxBackoff]
    exact ⟨h1, h2, (nextBackoff_invariant h1 h2).2.2,
      (nextBackoff_invariant h1 h2).2.2⟩
  | succ n ih =>
    obtain ⟨h1, h2, -, -⟩ := ih
    obtain ⟨g1, g2, -⟩ := nextBackoff_invariant h1 h2
    exact ⟨g1, g2, (nextBackoff_invariant g1 g2).2.2,
      (nextBackoff_invariant g1 g2).2.2⟩

/-- C1: the collateral amount `costWei` is derived from the single
tick-rounded price integer by exact integer arithmetic:
`costWei * 1000 = sizeWei * priceInt` with no residue, so the ratio of
`makerAmount` to `takerAmount` (inverted for sells) is exactly the rounded
price `priceInt/1000`; on every successful `BuildOrder` the serialized
amounts are precisely these integers. -/
theorem buildOrder_exact_amounts (price size : ℚ)
    (hp0 : 0 < price) (hp1 : price < 1) (hsz : sizeIntOf size ≠ 0) :
    costWeiOf price size * 1000 = sizeWeiOf size * priceIntOf price
  ∧ (costWeiOf price size : ℚ) / (sizeWeiOf size : ℚ) =
      (priceIntOf price : ℚ) / 1000
  ∧ ∀ (b : OrderBuilder) (now : ℤ) (saltR : Except String ℤ)
      (sign nrsign : WalletOrder → Except String String)
      (params : BuildParams) (req : OrderRequest),
      params.price = price → params.size = size →
      buildOrder b now saltR sign nrsign params = .ok req →
      (params.side = OrderSide.buy →
        req.order.makerAmount = toString (costWeiOf price size)
        ∧ req.order.takerAmount = toString (sizeWeiOf size))
      ∧ (params.side = OrderSide.sell →
        req.order.makerAmount = toString (sizeWeiOf size)
        ∧ req.order.takerAmount = toString (costWeiOf price size)) := by
  have hexact : costWeiOf price size * 1000 = sizeWeiOf size * priceIntOf price := by
    unfold costWeiOf sizeWeiOf
    have h : sizeIntOf size * 10000 * priceIntOf price
        = (sizeIntOf size * 10 * priceIntOf price) * 1000 := by ring
    rw [h, Int.mul_tdiv_cancel _ (by norm_num)]
  refine ⟨hexact, ?_, ?_⟩
  · have hne : (sizeWeiOf size : ℚ) ≠ 0 := by
      unfold sizeWeiOf
      exact_mod_cast mul_ne_zero hsz (by norm_num)
    have hq : (costWeiOf price size : ℚ) * 1000 =
        (sizeWeiOf size : ℚ) * (priceIntOf price : ℚ) := by
      exact_mod_cast congrArg (fun z : ℤ => (z : ℚ)) hexact
    field_simp
    linarith [hq]
  · intro b now saltR sign nrsign params req hpe hse hok
    obtain ⟨salt, tid, sig, -, -, hreq⟩ := buildOrder_ok_elim hok
    subst hreq
    constructor
    · intro hside
      constructor <;>
        simp [mkRequest, mkAPIOrder, makerAmountInt, takerAmountInt, hside, hpe, hse]
    · intro hside
      constructor <;>
        simp [mkRequest, mkAPIOrder, makerAmountInt, takerAmountInt, hside, hpe, hse]

/-- Witness for C1 at the spec's worked example `price = 0.657`,
`size = 12.3`. -/
theorem buildOrder_exact_amounts_witness :
    costWeiOf (657/1000) (123/10) * 1000 =
      sizeWeiOf (123/10) * priceIntOf (657/1000)
  ∧ (costWeiOf (657/1000) (123/10) : ℚ) / (sizeWeiOf (123/10) : ℚ) =
      (priceIntOf (657/1000) : ℚ) / 1000 :=
  ⟨(buildOrder_exact_amounts (657/1000) (123/10) (by norm_num) (by norm_num)
      (by norm_num [sizeIntOf])).1,
   (buildOrder_exact_amounts (657/1000) (123/10) (by norm_num) (by norm_num)
      (by norm_num [sizeIntOf])).2.1⟩

/-- C3: every built FOK or GTC order serializes its expiration as `"0"`
whatever expiration the caller supplied; only GTD orders carry the caller's
expiration, defaulted to `now + 3600` (one hour ahead, non-zero) when the
caller supplied zero. -/
theorem buildOrder_expiration_rule
    (b : OrderBuilder) (now : ℤ) (saltR : Except String ℤ)
    (sign nrsign : WalletOrder → Except String String)
    (params : BuildParams) (req : OrderRequest)
    (h : buildOrder b now saltR sign nrsign params = .ok req) :
    ((params.orderType = OrderType.FOK ∨ params.orderType = OrderType.GTC) →
        req.order.expiration = "0")
  ∧ (params.orderType = OrderType.GTD →
        req.order.expiration = toString (expirationOf now params)
      ∧ (params.expiration = 0 →
          expirationOf now params = now + 3600
          ∧ (0 ≤ now → expirationOf now params ≠ 0))
      ∧ (params.expiration ≠ 0 →
          expirationOf now params = params.expiration)) := by
  obtain ⟨salt, tid, sig, -, -, hreq⟩ := buildOrder_ok_elim h
  subst hreq
  constructor
  · rintro (hty | hty) <;>
      simp [mkRequest, mkAPIOrder, expirationOf, hty] <;> rfl
  · intro hty
    refine ⟨by simp [mkRequest, mkAPIOrder], ?_, ?_⟩
    · intro he
      have hv : expirationOf now params = now + 3600 := by
        simp [expirationOf, hty, he, defaultExpirationSeconds]
      exact ⟨hv, fun hnow => by rw [hv]; omega⟩
    · intro he
      simp [expirationOf, hty, he]

/-- Concrete inputs for the builder witnesses: a builder, a signer that
returns a fixed signature, and an FOK buy with a caller-supplied
expiration that must be ignored. -/
def builderW : OrderBuilder := ⟨"0xmaker", "0xsigner", "apikey", 0, 0⟩

/-- A signer stub used by the builder witnesses. -/
def signW : WalletOrder → Except String String := fun _ => .ok "0xsig"

/-- FOK buy build parameters with a non-zero caller expiration. -/
def paramsFOK : BuildParams := ⟨"123", .buy, 657/1000, 123/10, .FOK, 999, 0, false⟩

/-- Witness for C3: the FOK order built from `paramsFOK` (caller expiration
999) serializes expiration `"0"`. -/
theorem buildOrder_expiration_rule_witness :
    (mkRequest builderW 1700000000 5 "0xsig" paramsFOK).order.expiration = "0" :=
  (buildOrder_expiration_rule builderW 1700000000 (.ok 5) signW signW paramsFOK
      (mkRequest builderW 1700000000 5 "0xsig" paramsFOK)
      (by
        have h3 : parseBigInt10 "123" = some 123 := rfl
        norm_num [buildOrder, paramsFOK, builderW, signW, h3])).1
    (Or.inl rfl)

/-- C6: a price outside (0,1) exclusive, a non-positive size, or a
non-numeric token id each make `BuildOrder` return a descriptive error
whatever signing functions are configured — so no signing is attempted —
and a signer failure is returned to the caller wrapped as
`"failed to sign order: …"`. -/
theorem buildOrder_validation_errors
    (b : OrderBuilder) (now : ℤ) (params : BuildParams) :
    ((params.price ≤ 0 ∨ 1 ≤ params.price) →
      ∀ (saltR : Except String ℤ) (sign nrsign : WalletOrder → Except String String),
        buildOrder b now saltR sign nrsign params =
          .error ("price must be between 0 and 1 exclusive, got " ++
            toString params.price))
  ∧ (0 < params.price → params.price < 1 → params.size ≤ 0 →
      ∀ (saltR : Except String ℤ) (sign nrsign : WalletOrder → Except String String),
        buildOrder b now saltR sign nrsign params =
          .error ("size must be positive, got " ++ toString params.size))
  ∧ (∀ salt : ℤ, 0 < params.price → params.price < 1 → 0 < params.size →
      parseBigInt10 params.tokenID = none →
      ∀ (sign nrsign : WalletOrder → Except String String),
        buildOrder b now (.ok salt) sign nrsign params =
          .error ("invalid token ID: " ++ params.tokenID))
  ∧ (∀ (salt tokenIDBig : ℤ) (e : String)
        (sign nrsign : WalletOrder → Except String String),
      0 < params.price → params.price < 1 → 0 < params.size →
      parseBigInt10 params.tokenID = some tokenIDBig →
      (if params.negRisk then nrsign else sign)
        (mkWalletOrder b now salt tokenIDBig params) = .error e →
      buildOrder b now (.ok salt) sign nrsign params =
        .error ("failed to sign order: " ++ e)) := by
  refine ⟨?_, ?_, ?_, ?_⟩
  · intro hbad saltR sign nrsign
    unfold buildOrder
    rw [if_pos hbad]
  · intro hp0 hp1 hsz saltR sign nrsign
    unfold buildOrder
    rw [if_neg (by push_neg; exact ⟨hp0, hp1⟩), if_pos hsz]
  · intro salt hp0 hp1 hsz hparse sign nrsign
    unfold buildOrder
    rw [if_neg (by push_neg; exact ⟨hp0, hp1⟩), if_neg (not_le.mpr hsz)]
    simp only [hparse]
  · intro salt tokenIDBig e sign nrsign hp0 hp1 hsz hparse hsig
    unfold buildOrder
    rw [if_neg (by push_neg; exact ⟨hp0, hp1⟩), if_neg (not_le.mpr hsz)]
    simp only [hparse, hsig]

/-- Build parameters with an unparsable token id. -/
def paramsBadToken : BuildParams := ⟨"abc", .buy, 1/2, 10, .FOK, 0, 0, false⟩

/-- Witness for C6: a price of 2 is rejected with the descriptive price
error, and the token id `"abc"` is rejected before signing. -/
theorem buildOrder_validation_errors_witness :
    buildOrder builderW 0 (.ok 5) signW signW
        ⟨"123", .buy, 2, 10, .FOK, 0, 0, false⟩ =
      .error ("price must be between 0 and 1 exclusive, got " ++
        toString ((⟨"123", .buy, 2, 10, .FOK, 0, 0, false⟩ : BuildParams).price))
  ∧ buildOrder builderW 0 (.ok 5) signW signW paramsBadToken =
      .error ("invalid token ID: " ++ paramsBadToken.tokenID) :=
  ⟨(buildOrder_validation_errors builderW 0 _).1 (by norm_num) (.ok 5) signW signW,
   (buildOrder_validation_errors builderW 0 paramsBadToken).2.2.1 5
     (by norm_num [paramsBadToken]) (by norm_num [paramsBadToken])
     (by norm_num [paramsBadToken]) (by decide) signW signW⟩

/-- C10: the (0,1)-exclusive price check and positive-size check run on the
raw inputs, yet any price below half a tick rounds to the integer 0 and any
size below one hundredth floors to 0 units, so validation-accepted inputs
can still build orders whose wire amounts are `"0"`. -/
theorem buildOrder_zero_amount_hole :
    (∀ price : ℚ, 0 < price → price < 1/2000 → priceIntOf price = 0)
  ∧ (∀ size : ℚ, 0 < size → size < 1/100 → sizeIntOf size = 0)
  ∧ (∀ params : BuildParams, 0 < params.price → params.price < 1 →
      0 < params.size →
      ¬(params.price ≤ 0 ∨ 1 ≤ params.price) ∧ ¬(params.size ≤ 0))
  ∧ (∀ (b : OrderBuilder) (now : ℤ) (saltR : Except String ℤ)
        (sign nrsign : WalletOrder → Except String String)
        (params : BuildParams) (req : OrderRequest),
      buildOrder b now saltR sign nrsign params = .ok req →
      params.side = OrderSide.buy → priceIntOf params.price = 0 →
      req.order.makerAmount = "0")
  ∧ (∀ (b : OrderBuilder) (now : ℤ) (saltR : Except String ℤ)
        (sign nrsign : WalletOrder → Except String String)
        (params : BuildParams) (req : OrderRequest),
      buildOrder b now saltR sign nrsign params = .ok req →
      sizeIntOf params.size = 0 →
      req.order.makerAmount = "0" ∧ req.order.takerAmount = "0") := by
  refine ⟨?_, ?_, ?_, ?_, ?_⟩
  · intro price h0 h1
    have htick : (0:ℚ) < tickSize := by norm_num [tickSize]
    have hq0 : (0:ℚ) ≤ price / tickSize := le_of_lt (div_pos h0 htick)
    have hq1 : price / tickSize < 1/2 := by
      rw [div_lt_iff₀ htick]
      calc price < 1/2000 := h1
        _ = 1/2 * tickSize := by norm_num [tickSize]
    have hround : goRound (price / tickSize) = 0 := by
      rw [goRound, if_pos hq0, Int.floor_eq_zero_iff, Set.mem_Ico]
      constructor
      · linarith
      · linarith
    have htick0 : roundToTickSize price = 0 := by
      rw [roundToTickSize, hround]
      norm_num
    rw [priceIntOf, htick0, goRound]
    norm_num
  · intro size h0 h1
    rw [sizeIntOf, Int.floor_eq_zero_iff, Set.mem_Ico]
    constructor
    · positivity
    · linarith
  · intro params hp0 hp1 hs
    constructor
    · push_neg
      exact ⟨hp0, hp1⟩
    · exact not_le.mpr hs
  · intro b now saltR sign nrsign params req hok hside hzero
    obtain ⟨salt, tid, sig, -, -, hreq⟩ := buildOrder_ok_elim hok
    subst hreq
    have hcw : costWeiOf params.price params.size = 0 := by
      rw [costWeiOf, hzero]
      simp
    simp only [mkRequest, mkAPIOrder, makerAmountInt, hside, if_true,
      reduceIte, hcw]
    rfl
  · intro b now saltR sign nrsign params req hok hzero
    obtain ⟨salt, tid, sig, -, -, hreq⟩ := buildOrder_ok_elim hok
    subst hreq
    have hsw : sizeWeiOf params.size = 0 := by
      rw [sizeWeiOf, hzero]
      ring
    have hcw : costWeiOf params.price params.size = 0 := by
      rw [costWeiOf, hsw]
      simp
    constructor <;>
      · simp only [mkRequest, mkAPIOrder, makerAmountInt, takerAmountInt,
          hsw, hcw]
        split <;> rfl

/-- A buy at price 0.00025 — accepted by validation, yet below half a
tick. -/
def paramsTiny : BuildParams := ⟨"123", .buy, 1/4000, 10, .FOK, 0, 0, false⟩

/-- Witness for C10: price 0.00025 passes the (0,1) check but rounds to
price integer 0, and the successfully built buy order carries
`makerAmount = "0"`. -/
theorem buildOrder_zero_amount_hole_witness :
    priceIntOf (1/4000) = 0
  ∧ (mkRequest builderW 0 5 "0xsig" paramsTiny).order.makerAmount = "0" := by
  have h1 := buildOrder_zero_amount_hole.1 (1/4000) (by norm_num) (by norm_num)
  refine ⟨h1, ?_⟩
  refine buildOrder_zero_amount_hole.2.2.2.1 builderW 0 (.ok 5) signW signW
    paramsTiny _ ?_ rfl h1
  have h3 : parseBigInt10 "123" = some 123 := rfl
  norm_num [buildOrder, paramsTiny, builderW, signW, h3]

/-- C2: for every order accepted by `validateOrder`, when the underlying
ECDSA signer returns a 65-byte signature whose raw recovery byte is 0 or 1,
both `SignOrderRaw` and `SignOrder` return it with the recovery byte
shifted by +27 — the final byte is 27 or 28, never 0 or 1. -/
theorem signOrder_recovery_id (hashO : WalletOrder → List ℕ)
    (walletSign : List ℕ → Except String (List ℕ))
    (o : WalletOrder) (raw : List ℕ)
    (hval : validateOrder o = .ok ())
    (hsign : walletSign (hashO o) = .ok raw)
    (hlen : raw.length = 65)
    (hv : raw.getD 64 0 = 0 ∨ raw.getD 64 0 = 1) :
    ∃ out : List ℕ,
      signOrderRaw hashO walletSign o = .ok out
      ∧ signOrder hashO walletSign o = .ok ("0x" ++ hexEncode out)
      ∧ out.length = 65
      ∧ out.getD 64 0 = raw.getD 64 0 + 27
      ∧ (out.getD 64 0 = 27 ∨ out.getD 64 0 = 28)
      ∧ out.getD 64 0 ≠ 0 ∧ out.getD 64 0 ≠ 1 := by
  have hlt : raw.getD 64 0 < 27 := by omega
  have hadj : adjustV raw = raw.set 64 (raw.getD 64 0 + 27) := by
    rw [adjustV, if_pos hlt]
  have hidx : (64:ℕ) < raw.length := by omega
  have hget : (raw.set 64 (raw.getD 64 0 + 27)).getD 64 0 =
      raw.getD 64 0 + 27 := by
    rw [List.getD_eq_getElem?_getD, List.getElem?_set_self hidx]
    rfl
  refine ⟨adjustV raw, ?_, ?_, ?_, ?_, ?_, ?_, ?_⟩
  · rw [signOrderRaw, hval, hsign]
  · rw [signOrder, hval, hsign]
  · rw [hadj, List.length_set, hlen]
  · rw [hadj, hget]
  · rw [hadj, hget]
    omega
  · rw [hadj, hget]
    omega
  · rw [hadj, hget]
    omega

/-- A concrete valid order for the signing witness. -/
def orderW : WalletOrder :=
  ⟨some 5, "0xmaker", "0xsigner", zeroAddress, some 123, some 8081100,
    some 12300000, some 0, some 0, some 0, 0, 0⟩

/-- A stub ECDSA signer returning 65 bytes ending in recovery id 1. -/
def rawSigW : List ℕ := List.replicate 64 0 ++ [1]

/-- Witness for C2: on `orderW` with a raw signature ending in byte 1,
`SignOrderRaw` succeeds and its output ends in 28. -/
theorem signOrder_recovery_id_witness :
    ∃ out : List ℕ,
      signOrderRaw (fun _ => []) (fun _ => .ok rawSigW) orderW = .ok out
      ∧ signOrder (fun _ => []) (fun _ => .ok rawSigW) orderW =
          .ok ("0x" ++ hexEncode out)
      ∧ out.length = 65
      ∧ out.getD 64 0 = rawSigW.getD 64 0 + 27
      ∧ (out.getD 64 0 = 27 ∨ out.getD 64 0 = 28)
      ∧ out.getD 64 0 ≠ 0 ∧ out.getD 64 0 ≠ 1 :=
  signOrder_recovery_id (fun _ => []) (fun _ => .ok rawSigW) orderW rawSigW
    rfl rfl (by decide) (by decide)

/-- The proxy indices used by the retry loop are the cyclic successors of
the starting index, and at most `fuel` attempts are made. -/
theorem doRequestLoop_trace (N : ℕ) (outcome : ℕ → AttemptOutcome) :
    ∀ (fuel t cur : ℕ) (lastErr : Option String), cur < N →
      ∃ k, k ≤ fuel ∧
        (doRequestLoop N outcome t fuel cur lastErr).2 =
          (List.range k).map (fun i => (cur + i) % N) := by
  intro fuel
  induction fuel with
  | zero =>
    intro t cur lastErr hcur
    exact ⟨0, le_refl _, by simp [doRequestLoop]⟩
  | succ fuel ih =>
    intro t cur lastErr hcur
    have hmod : cur % N = cur := Nat.mod_eq_of_lt hcur
    have hcur' : (cur + 1) % N < N := Nat.mod_lt _ (by omega)
    have hstep : ∀ (t' : ℕ) (le' : Option String),
        ∃ k, k ≤ fuel + 1 ∧
          cur :: (doRequestLoop N outcome t' fuel ((cur+1) % N) le').2 =
            (List.range k).map (fun i => (cur + i) % N) := by
      intro t' le'
      obtain ⟨k, hk, htr⟩ := ih t' ((cur+1) % N) le' hcur'
      refine ⟨k + 1, by omega, ?_⟩
      rw [List.range_succ_eq_map, List.map_cons, htr, List.map_map]
      congr 1
      · rw [Nat.add_zero, hmod]
      · apply List.map_congr_left
        intro i hi
        simp only [Function.comp_apply]
        rw [Nat.mod_add_mod]
        congr 1
        omega
    cases h : outcome t with
    | netErr m =>
      by_cases hN : 1 < N
      · obtain ⟨k, hk, htr⟩ := hstep (t+1) (some m)
        refine ⟨k, hk, ?_⟩
        simp only [doRequestLoop, h, if_pos hN]
        exact htr
      · refine ⟨1, by omega, ?_⟩
        simp [doRequestLoop, h, hN, List.range_succ_eq_map, hmod]
    | resp s =>
      by_cases h403 : s = 403 ∧ 1 < N
      · obtain ⟨k, hk, htr⟩ := hstep (t+1) lastErr
        refine ⟨k, hk, ?_⟩
        simp only [doRequestLoop, h, if_pos h403]
        exact htr
      · refine ⟨1, by omega, ?_⟩
        simp [doRequestLoop, h, h403, List.range_succ_eq_map, hmod]

/-- The loop returns an aggregate exhaustion error only when every unit of
fuel (one per configured proxy) was consumed by an attempt. -/
theorem doRequestLoop_aggregate (N : ℕ) (outcome : ℕ → AttemptOutcome) :
    ∀ (fuel t cur : ℕ) (lastErr : Option String),
      (doRequestLoop N outcome t fuel cur lastErr).1.isAggregate = true →
      (doRequestLoop N outcome t fuel cur lastErr).2.length = fuel := by
  intro fuel
  induction fuel with
  | zero =>
    intro t cur lastErr _
    simp [doRequestLoop]
  | succ fuel ih =>
    intro t cur lastErr hagg
    cases h : outcome t with
    | netErr m =>
      by_cases hN : 1 < N
      · simp only [doRequestLoop, h, if_pos hN] at hagg ⊢
        simp only [List.length_cons]
        rw [ih (t+1) ((cur+1) % N) (some m) hagg]
      · simp only [doRequestLoop, h, if_neg hN] at hagg
        exact absurd hagg (by simp [ReqResult.isAggregate])
    | resp s =>
      by_cases h403 : s = 403 ∧ 1 < N
      · simp only [doRequestLoop, h, if_pos h403] at hagg ⊢
        simp only [List.length_cons]
        rw [ih (t+1) ((cur+1) % N) lastErr hagg]
      · simp only [doRequestLoop, h, if_neg h403] at hagg
        exact absurd hagg (by simp [ReqResult.isAggregate])

/-- C4: with `N ≥ 2` configured proxies, `doRequest` makes at most `N`
attempts per logical request, never uses the same proxy twice, and returns
an aggregate exhaustion error only once all `N` proxies were attempted;
with zero or one proxy exactly one attempt is made and no rotation
occurs. -/
theorem doRequest_rotation (N : ℕ) (outcome : ℕ → AttemptOutcome) (cur : ℕ) :
    (2 ≤ N → cur < N →
        (doRequest N outcome cur).2.length ≤ N
      ∧ (doRequest N outcome cur).2.Nodup
      ∧ ((doRequest N outcome cur).1.isAggregate = true →
          (doRequest N outcome cur).2.length = N))
  ∧ (N ≤ 1 → (doRequest N outcome cur).2 = [cur]) := by
  constructor
  · intro hN hcur
    have hmax : max N 1 = N := by omega
    obtain ⟨k, hk, htr⟩ :=
      doRequestLoop_trace N outcome (max N 1) 0 cur none hcur
    rw [hmax] at hk htr
    have hlen : (doRequest N outcome cur).2.length = k := by
      rw [doRequest, hmax, htr, List.length_map, List.length_range]
    refine ⟨by omega, ?_, ?_⟩
    · rw [doRequest, hmax, htr]
      refine List.Nodup.map_on ?_ (List.nodup_range _)
      intro i hi j hj hij
      have hi' : i < N := lt_of_lt_of_le (List.mem_range.mp hi) hk
      have hj' : j < N := lt_of_lt_of_le (List.mem_range.mp hj) hk
      have hmeq : i % N = j % N := Nat.ModEq.add_left_cancel' cur hij
      rw [Nat.mod_eq_of_lt hi', Nat.mod_eq_of_lt hj'] at hmeq
      exact hmeq
    · intro hagg
      rw [doRequest, hmax] at hagg ⊢
      exact doRequestLoop_aggregate N outcome N 0 cur none hagg
  · intro hN
    have hmax : max N 1 = 1 := by omega
    rw [doRequest, hmax]
    cases h : outcome 0 with
    | netErr m => simp [doRequestLoop, h, show ¬(1 < N) from by omega]
    | resp s => simp [doRequestLoop, h, show ¬(1 < N) from by omega]

/-- Witness for C4: two proxies, every attempt failing at transport level —
two attempts on proxies 0 and 1, no repeats, aggregate error after both. -/
theorem doRequest_rotation_witness :
    ((doRequest 2 (fun _ => .netErr "dial fail") 0).2.length ≤ 2
    ∧ (doRequest 2 (fun _ => .netErr "dial fail") 0).2.Nodup
    ∧ ((doRequest 2 (fun _ => .netErr "dial fail") 0).1.isAggregate = true →
        (doRequest 2 (fun _ => .netErr "dial fail") 0).2.length = 2))
  ∧ (doRequest 1 (fun _ => .netErr "dial fail") 0).2 = [0] :=
  ⟨(doRequest_rotation 2 (fun _ => .netErr "dial fail") 0).1 (by decide)
      (by decide),
   (doRequest_rotation 1 (fun _ => .netErr "dial fail") 0).2 (by decide)⟩

/-- An element just inserted is in the subscription set. -/
theorem self_mem_insertSub (s : List String) (id : String) :
    id ∈ insertSub s id := by
  rw [insertSub]
  split
  · assumption
  · simp

/-- Insertion preserves existing members of the subscription set. -/
theorem mem_insertSub_of_mem {s : List String} {id : String} (a : String)
    (h : id ∈ s) : id ∈ insertSub s a := by
  rw [insertSub]
  split
  · exact h
  · exact List.mem_append_left _ h

/-- Every requested id ends up in the set after the subscribe fold. -/
theorem mem_foldl_insertSub (ids : List String) :
    ∀ (s : List String) (id : String), id ∈ ids ∨ id ∈ s →
      id ∈ ids.foldl insertSub s := by
  induction ids with
  | nil =>
    intro s id h
    rcases h with h | h
    · cases h
    · exact h
  | cons a ids ih =>
    intro s id h
    rw [List.foldl_cons]
    rcases h with h | h
    · rcases List.mem_cons.mp h with rfl | h
      · exact ih _ _ (Or.inr (self_mem_insertSub s id))
      · exact ih _ _ (Or.inl h)
    · exact ih _ _ (Or.inr (mem_insertSub_of_mem a h))

/-- C5 counterexample: on a disconnected client, `Subscribe` returns the
`"not connected"` error before touching the subscription set — the id is
not tracked for the next reconnect, contrary to the claim. -/
theorem subscribe_disconnected_no_update :
    (subscribe (.ok ()) ⟨false, []⟩ ["123"]).1 = .error "not connected"
  ∧ (subscribe (.ok ()) ⟨false, []⟩ ["123"]).2.subscribed = []
  ∧ "123" ∉ (subscribe (.ok ()) ⟨false, []⟩ ["123"]).2.subscribed :=
  ⟨rfl, rfl, by simp [subscribe]⟩

/-- C5 amended: `Subscribe`/`Unsubscribe` with a non-empty id list mutate
the tracked set only when connected (and the wire write succeeds); when
not connected they return a `"not connected"` error and leave the client
state — including the subscription set — unchanged. -/
theorem subscribe_set_semantics (st : WSState) (write : Except String Unit)
    (ids : List String) (hne : ids ≠ []) :
    (st.connected = false →
        (subscribe write st ids).1 = .error "not connected"
      ∧ (subscribe write st ids).2 = st
      ∧ (unsubscribe write st ids).1 = .error "not connected"
      ∧ (unsubscribe write st ids).2 = st)
  ∧ (st.connected = true → write = .ok () →
        (subscribe write st ids).1 = .ok ()
      ∧ (∀ id ∈ ids, id ∈ (subscribe write st ids).2.subscribed)
      ∧ (unsubscribe write st ids).1 = .ok ()
      ∧ (∀ id ∈ ids, id ∉ (unsubscribe write st ids).2.subscribed)) := by
  have hemp : ids.isEmpty = false := by
    cases ids with
    | nil => exact absurd rfl hne
    | cons a ids => rfl
  constructor
  · intro hconn
    refine ⟨?_, ?_, ?_, ?_⟩ <;> simp [subscribe, unsubscribe, hemp, hconn]
  · intro hconn hw
    subst hw
    refine ⟨?_, ?_, ?_, ?_⟩
    · simp [subscribe, hemp, hconn]
    · intro id hid
      simp only [subscribe, hemp, hconn, Bool.false_eq_true, if_false,
        Bool.true_eq_false, List.isEmpty_eq_false]
      exact mem_foldl_insertSub ids st.subscribed id (Or.inl hid)
    · simp [unsubscribe, hemp, hconn]
    · intro id hid
      simp only [unsubscribe, hemp, hconn, Bool.false_eq_true, if_false,
        Bool.true_eq_false, List.isEmpty_eq_false]
      simp [List.mem_filter, hid]

/-- Witness for C5 (amended): on a connected client with a successful
write, subscribing `"a"` succeeds and `"a"` is tracked. -/
theorem subscribe_set_semantics_witness :
    (subscribe (.ok ()) ⟨true, []⟩ ["a"]).1 = .ok ()
  ∧ ∀ id ∈ ["a"], id ∈ (subscribe (.ok ()) ⟨true, []⟩ ["a"]).2.subscribed :=
  ⟨((subscribe_set_semantics ⟨true, []⟩ (.ok ()) ["a"] (by decide)).2 rfl rfl).1,
   ((subscribe_set_semantics ⟨true, []⟩ (.ok ()) ["a"] (by decide)).2 rfl rfl).2.1⟩

/-- C8 (code bug): the first `Close` succeeds and makes the retry loop
exit, but a second `Close` executes `close(c.done)` on an already-closed
channel, which panics — it does not behave like the first call. -/
theorem wsClose_double_close_panics :
    wsClose ⟨false, true⟩ = some ⟨true, false⟩
  ∧ (wsClose ⟨false, true⟩).bind wsClose = none
  ∧ runLoopStep ⟨true, false⟩ false = RunStep.exits :=
  ⟨rfl, rfl, rfl⟩

/-- Folding the running total of `TotalExposure` from any seed. -/
theorem foldl_exposure (l : List OpenPosition) :
    ∀ a : ℚ, l.foldl (fun total p => total + p.size * p.bidPrice) a =
      a + (l.map (fun p => p.size * p.bidPrice)).sum := by
  induction l with
  | nil =>
    intro a
    simp
  | cons p l ih =>
    intro a
    simp only [List.foldl_cons, List.map_cons, List.sum_cons, ih]
    ring

/-- Removing a sequence of ids filters out exactly the entries keyed by
them. -/
theorem foldl_trackerRemove_eq_filter (ids : List String) :
    ∀ pt : List OpenPosition,
      ids.foldl trackerRemove pt =
        pt.filter (fun p => decide (p.orderID ∉ ids)) := by
  induction ids with
  | nil =>
    intro pt
    simp
  | cons id ids ih =>
    intro pt
    rw [List.foldl_cons, ih, trackerRemove, List.filter_filter]
    apply List.filter_congr
    intro p hp
    by_cases h1 : p.orderID = id <;> by_cases h2 : p.orderID ∈ ids <;>
      simp [h1, h2]

/-- C9 counterexample positions: two distinct sizes under the same order
id `"a"`. -/
def posA : OpenPosition := ⟨"a", "tok", "mkt", 1/2, 1, "open"⟩

/-- Overwriting position under the same id as `posA`. -/
def posA2 : OpenPosition := ⟨"a", "tok", "mkt", 1/2, 2, "open"⟩

/-- A position under a fresh order id `"b"`. -/
def posB : OpenPosition := ⟨"b", "tok", "mkt", 1/4, 2, "open"⟩

/-- C9 counterexample: with `"a"` already tracked, `Add` of another
position under id `"a"` followed by `Remove "a"` yields exposure 0, not
the previous exposure 1/2 — Add/Remove of an existing id does not restore
the previous exposure. -/
theorem trackerAdd_remove_not_restoring :
    totalExposure (trackerRemove (trackerAdd [posA] posA2) "a") ≠
      totalExposure [posA] := by
  norm_num [posA, posA2, trackerAdd, trackerRemove, totalExposure]

/-- C9 amended: `TotalExposure` is the sum of size×bid over the tracked
positions, zero on the empty tracker and after removing every tracked
order id; and `Add` of a *fresh* order id followed by `Remove` of that id
restores the previous exposure (for an already-tracked id the overwritten
entry is lost, see the counterexample). -/
theorem totalExposure_ledger (pt : List OpenPosition) (pos : OpenPosition) :
    totalExposure pt = (pt.map (fun p => p.size * p.bidPrice)).sum
  ∧ totalExposure ([] : List OpenPosition) = 0
  ∧ totalExposure ((pt.map (fun p => p.orderID)).foldl trackerRemove pt) = 0
  ∧ (pos.orderID ∉ pt.map (fun p => p.orderID) →
      totalExposure (trackerRemove (trackerAdd pt pos) pos.orderID) =
        totalExposure pt) := by
  refine ⟨?_, rfl, ?_, ?_⟩
  · rw [totalExposure, foldl_exposure, zero_add]
  · rw [foldl_trackerRemove_eq_filter]
    have hnil : pt.filter
        (fun p => decide (p.orderID ∉ pt.map (fun q => q.orderID))) = [] := by
      rw [List.filter_eq_nil_iff]
      intro p hp
      simp only [decide_eq_true_eq, not_not]
      exact List.mem_map_of_mem _ hp
    rw [hnil]
    rfl
  · intro h
    have hfix : trackerRemove pt pos.orderID = pt := by
      rw [trackerRemove]
      apply List.filter_eq_self.mpr
      intro p hp
      simp only [decide_eq_true_eq]
      intro heq
      apply h
      rw [← heq]
      exact List.mem_map_of_mem _ hp
    rw [trackerAdd, hfix]
    have hdrop : trackerRemove (pos :: pt) pos.orderID =
        trackerRemove pt pos.orderID := by
      rw [trackerRemove, trackerRemove, List.filter_cons]
      simp
    rw [hdrop, hfix]

/-- Witness for C9 (amended): adding fresh id `"b"` beside tracked `"a"`
and removing it restores the original exposure. -/
theorem totalExposure_ledger_witness :
    totalExposure (trackerRemove (trackerAdd [posA] posB) posB.orderID) =
      totalExposure [posA] :=
  (totalExposure_ledger [posA] posB).2.2.2 (by decide)

end Poly15
